import Mathlib

/-!
Shallow embedding of the Laser-workshop backend (Django/DRF) core:
the Order/Shift data model (`orders/models.py`), the save paths
(`Order.save`, `OrderUpdateStatusSerializer.update`), the shift
open/close procedures (`orders/views.py`), the authorization rules
(`orders/permissions.py`), the broadcast signals (`orders/signals.py`),
the public track/showcase reads, and the daily report
(`reports/views.py`).

Modelling conventions:
* timestamps are abstract instants `Nat`; the calendar date of an
  instant is `t / secondsPerDay` (mirrors Django's `__date` lookup);
* decimal amounts are integers (fixed-point cents), so sums are exact;
* nullable columns are `Option`; Python truthiness of an optional
  decimal (`not self.price`) is `none` or `some 0`;
* a Django `save()` that raises before `super().save()` is a function
  returning `Except`: the error case persists nothing.
-/

namespace LaserWorkshop

/-- The five workflow statuses of `Order.STATUS_CHOICES`. -/
inductive Status where
  | UNDER_WORK
  | DESIGNING
  | DESIGN_COMPLETED
  | DONE_CUTTING
  | DELIVERED
deriving DecidableEq, Repr

/-- Human-readable labels paired with each status in `STATUS_CHOICES`
(the value `get_status_display` returns). -/
def statusDisplay : Status → String
  | .UNDER_WORK => "Under Work"
  | .DESIGNING => "Designing"
  | .DESIGN_COMPLETED => "Design Completed"
  | .DONE_CUTTING => "Done Cutting"
  | .DELIVERED => "Delivered"

/-- The declared order of `Order.STATUS_CHOICES`. -/
def allStatuses : List Status :=
  [.UNDER_WORK, .DESIGNING, .DESIGN_COMPLETED, .DONE_CUTTING, .DELIVERED]

/-- User roles (`accounts/models.py`, `ROLE_CHOICES`). -/
inductive Role where
  | MANAGER
  | WORKER
deriving DecidableEq, Repr

/-- HTTP verbs relevant to the permission classes. -/
inductive Method where
  | GET
  | HEAD
  | OPTIONS
  | POST
  | PUT
  | PATCH
  | DELETE
deriving DecidableEq, Repr

/-- `rest_framework.permissions.SAFE_METHODS`. -/
def safeMethods : List Method := [.GET, .HEAD, .OPTIONS]

/-- A field-level model/serializer validation error
(`django.core.exceptions.ValidationError` with a field map). -/
structure FieldError where
  field : String
  message : String
deriving DecidableEq, Repr

/-- Kinds of API-level errors, as classified by DRF exception classes
(each maps to a distinct HTTP status: validation 400, conflict 409, …). -/
inductive ErrorKind where
  | validation
  | authorization
  | authentication
  | notFound
  | conflict
deriving DecidableEq, Repr

/-- An error surfaced by a view, with its DRF kind and message. -/
structure ApiError where
  kind : ErrorKind
  message : String
deriving DecidableEq, Repr

/-- The `Order` model (`orders/models.py`).  User and shift foreign keys
are carried as optional ids. -/
structure Order where
  id : Nat
  customer_name : String
  customer_phone : String
  order_details : String
  image : Option String
  price : Option Int
  status : Status
  created_by : Option Nat
  created_at : Nat
  updated_at : Nat
  delivered_at : Option Nat
  delivered_in_shift : Option Nat
deriving DecidableEq, Repr

/-- The `Shift` model (`orders/models.py`). -/
structure Shift where
  id : Nat
  opened_at : Nat
  closed_at : Option Nat
  opened_by : Option Nat
  closed_by : Option Nat
  is_active : Bool
  total_orders_delivered : Nat
  total_revenue : Int
deriving DecidableEq, Repr

/-- Python truthiness test `not self.price` on the optional decimal
price: true on `None` and on zero. -/
def priceFalsy : Option Int → Bool
  | none => true
  | some p => p == 0

/-- `Order.clean`: price is required when status is DELIVERED. -/
def Order.clean (o : Order) : Except FieldError Unit :=
  if o.status = .DELIVERED ∧ priceFalsy o.price then
    .error ⟨"price", "Price is required when order is marked as delivered."⟩
  else
    .ok ()

/-- The two timestamp rules at the top of `Order.save`: stamp
`delivered_at` on entry into DELIVERED (`if self.status == 'DELIVERED'
and not self.delivered_at`), clear it away from DELIVERED (`if
self.status != 'DELIVERED' and self.delivered_at`). -/
def Order.deliveredAtRules (o : Order) (now : Nat) : Order :=
  let o1 :=
    if o.status = .DELIVERED ∧ o.delivered_at = none then
      { o with delivered_at := some now }
    else o
  if o1.status ≠ .DELIVERED ∧ o1.delivered_at ≠ none then
    { o1 with delivered_at := none }
  else o1

/-- `Order.save`: applies the `delivered_at` rules, then runs
`full_clean` (which calls `clean`) before persisting; a validation
error persists nothing. -/
def Order.save (o : Order) (now : Nat) : Except FieldError Order :=
  let o2 := o.deliveredAtRules now
  match o2.clean with
  | .error e => .error e
  | .ok _ => .ok o2

/-- `OrderUpdateStatusSerializer.update`: stamps `delivered_at` when the
status moves into DELIVERED from another status, writes the new status,
and delegates to `Order.save`. -/
def updateStatusSerializerUpdate (inst : Order) (new_status : Status)
    (now : Nat) : Except FieldError Order :=
  let inst :=
    if new_status = .DELIVERED ∧ inst.status ≠ .DELIVERED then
      { inst with delivered_at := some now }
    else inst
  let inst := { inst with status := new_status }
  inst.save now

/-- `OrderSerializer.validate`: the serializer-level copy of the
price/DELIVERED check, evaluated on the request attributes merged over
the existing instance. -/
def orderSerializerValidate (inst : Option Order)
    (attrStatus : Option Status) (attrPrice : Option (Option Int)) :
    Except FieldError Unit :=
  let status : Option Status :=
    match attrStatus with
    | some s => some s
    | none => inst.map (·.status)
  let price : Option Int :=
    match attrPrice with
    | some p => p
    | none => inst.bind (·.price)
  if status = some .DELIVERED ∧ priceFalsy price then
    .error ⟨"price", "Price is required when order is marked as delivered."⟩
  else
    .ok ()

/-- The filter of `ShiftViewSet._close_shift`: orders with status
DELIVERED and `delivered_at` in `[opened_at, closed_at]` (a `__gte`
lookup on a nullable column never matches NULL). -/
def matchesDelivered (opened_at closed_at : Nat) (o : Order) : Bool :=
  decide (o.status = .DELIVERED) &&
  (match o.delivered_at with
   | some t => decide (opened_at ≤ t) && decide (t ≤ closed_at)
   | none => false)

/-- Django's `aggregate(Sum('price'))`: NULL prices are skipped and the
sum of an empty set is NULL. -/
def sumPrices (orders : List Order) : Option Int :=
  let ps := orders.filterMap (·.price)
  if ps.isEmpty then none else some ps.sum

/-- Python's `x if x else 0` on the optional aggregate result. -/
def revenueOrZero : Option Int → Int
  | none => 0
  | some r => if r = 0 then 0 else r

/-- `ShiftViewSet._close_shift`: stamps `closed_at`/`closed_by`, clears
`is_active`, freezes count and revenue over the delivered orders in the
shift window, and bulk-links those orders to the shift.  Returns the
updated shift and the updated order table. -/
def closeShiftHelper (s : Shift) (user : Nat) (orders : List Order)
    (now : Nat) : Shift × List Order :=
  let s := { s with closed_at := some now, closed_by := some user,
                    is_active := false }
  let matched := orders.filter (matchesDelivered s.opened_at now)
  let total_rev := sumPrices matched
  let s := { s with total_orders_delivered := matched.length,
                    total_revenue := revenueOrZero total_rev }
  let orders := orders.map (fun o =>
    if matchesDelivered s.opened_at now o then
      { o with delivered_in_shift := some s.id }
    else o)
  (s, orders)

/-- The persistent store the shift endpoints act on. -/
structure DB where
  shifts : List Shift
  orders : List Order
  nextShiftId : Nat
deriving DecidableEq, Repr

/-- Apply `_close_shift` to the shift with the given id (no-op when the
id is absent, mirroring that the caller always holds a fetched row). -/
def closeShiftInDB (db : DB) (sid user now : Nat) : DB :=
  match db.shifts.find? (fun s => s.id == sid) with
  | none => db
  | some s =>
    let p := closeShiftHelper s user db.orders now
    { db with
      shifts := db.shifts.map (fun t => if t.id == sid then p.1 else t),
      orders := p.2 }

/-- `ShiftViewSet.close`: 404 on a missing shift, rejects an inactive
shift with a DRF `ValidationError` before touching any state, otherwise
runs `_close_shift`.  Returns the (possibly unchanged) store and the
error, if any. -/
def closeAction (db : DB) (sid user now : Nat) : DB × Option ApiError :=
  match db.shifts.find? (fun s => s.id == sid) with
  | none => (db, some ⟨.notFound, "No Shift matches the given query."⟩)
  | some s =>
    if s.is_active = false then
      (db, some ⟨.validation, "Shift already closed"⟩)
    else
      (closeShiftInDB db sid user now, none)

/-- `ShiftViewSet.open_new`: runs `_close_shift` on every currently
active shift with the requesting user as closer, then creates a fresh
active shift with zeroed statistics opened by that user. -/
def openNew (db : DB) (user now : Nat) : DB :=
  let activeIds := (db.shifts.filter (·.is_active)).map (·.id)
  let db := activeIds.foldl (fun db sid => closeShiftInDB db sid user now) db
  let newShift : Shift :=
    { id := db.nextShiftId, opened_at := now, closed_at := none,
      opened_by := some user, closed_by := none, is_active := true,
      total_orders_delivered := 0, total_revenue := 0 }
  { db with shifts := db.shifts ++ [newShift],
            nextShiftId := db.nextShiftId + 1 }

/-- The shift operations an actor can issue. -/
inductive ShiftOp where
  | openShift (user now : Nat)
  | closeShift (sid user now : Nat)
deriving DecidableEq, Repr

/-- One endpoint step on the store. -/
def applyShiftOp (db : DB) : ShiftOp → DB
  | .openShift u t => openNew db u t
  | .closeShift sid u t => (closeAction db sid u t).1

/-- Run a sequence of shift operations from an empty shift table over a
fixed order table. -/
def runShiftOps (ops : List ShiftOp) (orders : List Order) : DB :=
  ops.foldl applyShiftOp ⟨[], orders, 1⟩

/-- Number of shifts with `is_active = true`. -/
def activeCount (db : DB) : Nat :=
  db.shifts.countP (·.is_active)

/-- `set(request.data.keys()).issubset({'status'})`. -/
def fieldsOnlyStatus (fields : List String) : Bool :=
  fields.all (fun f => decide (f = "status"))

/-- `CanUpdateOrder.has_object_permission`: safe methods pass, managers
pass, a worker's PATCH/PUT passes exactly when the request's field set
is a subset of `{status}`; everything else falls through to `False`. -/
def canUpdateOrderObjectPermission (role : Role) (method : Method)
    (fields : List String) : Bool :=
  if method ∈ safeMethods then true
  else if role = .MANAGER then true
  else if role = .WORKER then
    if method = .PATCH ∨ method = .PUT then fieldsOnlyStatus fields
    else false
  else false

/-- `CanUpdateOrder.has_permission`: authenticated manager or worker. -/
def canUpdateOrderPermission (authenticated : Bool) (role : Role) : Bool :=
  authenticated && decide (role = .MANAGER ∨ role = .WORKER)

/-- The two write endpoints that mutate an order: the router's standard
update (PUT/PATCH), gated by `[IsAuthenticated, CanUpdateOrder,
CanDeleteOrder]`, and the `update_status` action, whose decorator
overrides the permission classes with `[IsAuthenticated]` alone. -/
inductive UpdateEndpoint where
  | standard (method : Method)
  | updateStatus
deriving DecidableEq, Repr

/-- Whether the permission layer lets an order-update request through
(`CanDeleteOrder` passes any non-DELETE request at both levels). -/
def orderUpdateAuthorized (authenticated : Bool) (role : Role)
    (ep : UpdateEndpoint) (fields : List String) : Bool :=
  match ep with
  | .standard m =>
    authenticated && canUpdateOrderPermission authenticated role &&
    canUpdateOrderObjectPermission role m fields
  | .updateStatus => authenticated

/-- DRF dispatch for an order update: permissions are checked in
`get_object` before the serializer runs, so a rejected request reaches
no mutation (`mutate` abstracts the serializer save). -/
def performOrderUpdate (authenticated : Bool) (role : Role)
    (ep : UpdateEndpoint) (fields : List String) (db : DB)
    (mutate : DB → DB) : DB × Option ErrorKind :=
  if orderUpdateAuthorized authenticated role ep fields then
    (mutate db, none)
  else
    (db, some .authorization)

/-- Serialized order as produced by `OrderSerializer` (the payload of
save notifications); `users` resolves a user id to its username. -/
structure SerializedOrder where
  id : Nat
  customer_name : String
  customer_phone : String
  order_details : String
  image : Option String
  price : Option Int
  status : Status
  status_display : String
  created_by : Option Nat
  created_by_username : Option String
  created_at : Nat
  updated_at : Nat
  delivered_at : Option Nat
deriving DecidableEq, Repr

/-- `OrderSerializer` applied to an order. -/
def serializeOrder (o : Order) (users : Nat → Option String) :
    SerializedOrder :=
  { id := o.id, customer_name := o.customer_name,
    customer_phone := o.customer_phone, order_details := o.order_details,
    image := o.image, price := o.price, status := o.status,
    status_display := statusDisplay o.status, created_by := o.created_by,
    created_by_username := o.created_by.bind users,
    created_at := o.created_at, updated_at := o.updated_at,
    delivered_at := o.delivered_at }

/-- Broadcast actions carried by the signal payloads. -/
inductive BroadcastAction where
  | created
  | updated
  | deleted
deriving DecidableEq, Repr

/-- Payload of an order notification: the full serialized order for
saves, the bare id for deletions. -/
inductive OrderPayload where
  | full (data : SerializedOrder)
  | idOnly (id : Nat)
deriving DecidableEq, Repr

/-- One message published through the channel layer. -/
structure BroadcastMessage where
  group : String
  msgType : String
  action : BroadcastAction
  payload : OrderPayload
deriving DecidableEq, Repr

/-- `order_saved` receiver on `post_save`: publishes one message to the
shared `orders` group when a channel layer is configured. -/
def orderSavedSignal (layerPresent : Bool) (created : Bool) (o : Order)
    (users : Nat → Option String) : List BroadcastMessage :=
  if layerPresent then
    [{ group := "orders", msgType := "order_update",
       action := if created then .created else .updated,
       payload := .full (serializeOrder o users) }]
  else []

/-- `order_deleted` receiver on `post_delete`: publishes one message
carrying only the order's id. -/
def orderDeletedSignal (layerPresent : Bool) (o : Order) :
    List BroadcastMessage :=
  if layerPresent then
    [{ group := "orders", msgType := "order_update",
       action := .deleted, payload := .idOnly o.id }]
  else []

/-- A model save together with its signal traffic: `post_save` fires
only after `super().save()` succeeds, so a failed `full_clean` emits
nothing. -/
def saveWithSignals (layerPresent created : Bool) (o : Order) (now : Nat)
    (users : Nat → Option String) :
    Except FieldError Order × List BroadcastMessage :=
  match o.save now with
  | .error e => (.error e, [])
  | .ok o2 => (.ok o2, orderSavedSignal layerPresent created o2 users)

/-- The response body of the public `OrderViewSet.track` action. -/
structure TrackResponse where
  id : Nat
  status : Status
  status_display : String
  customer_name : String
  order_details : String
  created_at : Nat
  delivered_at : Option Nat
deriving DecidableEq, Repr

/-- `OrderViewSet.track` on a fetched order. -/
def track (o : Order) : TrackResponse :=
  { id := o.id, status := o.status,
    status_display := statusDisplay o.status,
    customer_name := o.customer_name, order_details := o.order_details,
    created_at := o.created_at, delivered_at := o.delivered_at }

/-- One entry of the public showcase list (`OrderShowcaseSerializer`). -/
structure ShowcaseEntry where
  id : Nat
  customer_name : String
  image : Option String
  order_details : String
  delivered_at : Option Nat
deriving DecidableEq, Repr

/-- `OrderShowcaseSerializer` applied to an order. -/
def showcaseSerialize (o : Order) : ShowcaseEntry :=
  { id := o.id, customer_name := o.customer_name, image := o.image,
    order_details := o.order_details, delivered_at := o.delivered_at }

/-- Length of a calendar day in abstract time units; `dateOf` mirrors
Django's `__date` lookup on a timestamp. -/
def secondsPerDay : Nat := 86400

/-- Calendar date of an instant. -/
def dateOf (t : Nat) : Nat := t / secondsPerDay

/-- The parts of the `DailyReportView.get` response body the report
consumers rely on (the float `average_order_value` and the serialized
order list are presentation only). -/
structure DailyReport where
  date : Nat
  total_orders : Nat
  total_revenue : Int
  orders_by_status : List (Status × Nat)
deriving DecidableEq, Repr

/-- Association lookup with decidable key equality (the semantics of
the Python dict the view builds). -/
def lookupStatus (s : Status) : List (Status × Nat) → Option Nat
  | [] => none
  | kv :: rest => if kv.1 = s then some kv.2 else lookupStatus s rest

/-- `DailyReportView.get` for a given date over the order table:
financials from DELIVERED orders delivered that date, plus a status
breakdown of orders created that date, filled with zeros for statuses
absent from the group-by. -/
def dailyReport (d : Nat) (orders : List Order) : DailyReport :=
  let delivered := orders.filter (fun o =>
    decide (o.status = .DELIVERED) &&
    (match o.delivered_at with
     | some t => decide (dateOf t = d)
     | none => false))
  let total_revenue := sumPrices delivered
  let created := orders.filter (fun o => decide (dateOf o.created_at = d))
  let present := (created.map (·.status)).dedup
  let counts := present.map (fun s =>
    (s, created.countP (fun o => decide (o.status = s))))
  let breakdown := counts ++
    (allStatuses.filter (fun s => decide (s ∉ present))).map (fun s => (s, 0))
  { date := d, total_orders := delivered.length,
    total_revenue := revenueOrZero total_revenue,
    orders_by_status := breakdown }

/-! ### Helper lemmas about the save paths -/

theorem deliveredAtRules_status (o : Order) (now : Nat) :
    (o.deliveredAtRules now).status = o.status := by
  unfold Order.deliveredAtRules
  dsimp only
  split <;> split <;> rfl

theorem deliveredAtRules_price (o : Order) (now : Nat) :
    (o.deliveredAtRules now).price = o.price := by
  unfold Order.deliveredAtRules
  dsimp only
  split <;> split <;> rfl

theorem deliveredAtRules_delivered_at_of_delivered (o : Order) (now : Nat)
    (h : o.status = .DELIVERED) :
    (o.deliveredAtRules now).delivered_at = some (o.delivered_at.getD now) := by
  unfold Order.deliveredAtRules
  cases hd : o.delivered_at with
  | none => simp [h, hd]
  | some t => simp [h, hd]

theorem deliveredAtRules_delivered_at_of_not_delivered (o : Order) (now : Nat)
    (h : ¬ o.status = .DELIVERED) :
    (o.deliveredAtRules now).delivered_at = none := by
  unfold Order.deliveredAtRules
  cases hd : o.delivered_at with
  | none => simp [h, hd]
  | some t => simp [h, hd]

theorem save_ok_eq (o : Order) (now : Nat) (o' : Order)
    (h : o.save now = .ok o') : o' = o.deliveredAtRules now := by
  unfold Order.save at h
  dsimp only at h
  cases hc : (o.deliveredAtRules now).clean with
  | error e => rw [hc] at h; exact absurd h (by simp)
  | ok u => rw [hc] at h; simp only [Except.ok.injEq] at h; exact h.symm

theorem save_ok_invariant (o : Order) (now : Nat) (o' : Order)
    (h : o.save now = .ok o') :
    o'.status = .DELIVERED ↔ o'.delivered_at ≠ none := by
  obtain rfl := save_ok_eq o now o' h
  by_cases hs : o.status = .DELIVERED
  · rw [deliveredAtRules_status, deliveredAtRules_delivered_at_of_delivered o now hs]
    simp [hs]
  · rw [deliveredAtRules_status, deliveredAtRules_delivered_at_of_not_delivered o now hs]
    simp [hs]

theorem save_error_of_falsy_price (o : Order) (now : Nat)
    (hs : o.status = .DELIVERED) (hp : priceFalsy o.price = true) :
    o.save now =
      .error ⟨"price", "Price is required when order is marked as delivered."⟩ := by
  have h1 : (o.deliveredAtRules now).status = .DELIVERED := by
    rw [deliveredAtRules_status]; exact hs
  have h2 : priceFalsy (o.deliveredAtRules now).price = true := by
    rw [deliveredAtRules_price]; exact hp
  unfold Order.save Order.clean
  simp [h1, h2]

/-! ### C1, C4, C10: the save-path claims -/

/-- C1: on every save path (full update, status-only update, create all
end in `Order.save`), a successful save leaves `delivered_at` non-null
iff the status is DELIVERED; the timestamp is stamped to "now" on the
transition into DELIVERED and cleared on the transition away. -/
theorem claim_delivered_at_iff_status (o : Order) (now : Nat) (o' : Order) :
    (o.save now = .ok o' →
       ((o'.status = .DELIVERED ↔ o'.delivered_at ≠ none)
         ∧ (o.status = .DELIVERED → o.delivered_at = none →
              o'.delivered_at = some now)
         ∧ (¬ o.status = .DELIVERED → o'.delivered_at = none)))
    ∧ (∀ ns, updateStatusSerializerUpdate o ns now = .ok o' →
         (o'.status = .DELIVERED ↔ o'.delivered_at ≠ none)) := by
  constructor
  · intro h
    refine ⟨save_ok_invariant o now o' h, ?_, ?_⟩
    · intro hs hd
      obtain rfl := save_ok_eq o now o' h
      rw [deliveredAtRules_delivered_at_of_delivered o now hs, hd]
      rfl
    · intro hs
      obtain rfl := save_ok_eq o now o' h
      exact deliveredAtRules_delivered_at_of_not_delivered o now hs
  · intro ns h
    unfold updateStatusSerializerUpdate at h
    exact save_ok_invariant _ now o' h

/-- Witness for C1 at a concrete order: delivering an undelivered order
at time 5 stamps `delivered_at = 5`, and the invariant holds. -/
theorem claim_delivered_at_iff_status_witness :
    ((Order.mk 1 "a" "p" "d" none (some 150) .DELIVERED none 0 0 none none).save 5
       = .ok (Order.mk 1 "a" "p" "d" none (some 150) .DELIVERED none 0 0 (some 5) none))
    ∧ ((Order.mk 1 "a" "p" "d" none (some 150) .DELIVERED none 0 0 (some 5) none).status
         = Status.DELIVERED
       ↔ (Order.mk 1 "a" "p" "d" none (some 150) .DELIVERED none 0 0 (some 5) none).delivered_at
         ≠ none) := by
  refine ⟨by rfl, ?_⟩
  exact ((claim_delivered_at_iff_status
    (Order.mk 1 "a" "p" "d" none (some 150) .DELIVERED none 0 0 none none) 5
    (Order.mk 1 "a" "p" "d" none (some 150) .DELIVERED none 0 0 (some 5) none)).1
    (by rfl)).1

/-- C4: saving an order with status DELIVERED and a null or zero price
fails with a validation error naming the `price` field, on the model
save path, the status-only serializer path, and the full serializer's
`validate`; the `Except.error` result persists nothing. -/
theorem claim_delivered_requires_price (o : Order) (now : Nat)
    (hp : priceFalsy o.price = true) :
    (o.status = .DELIVERED →
       o.save now =
         .error ⟨"price", "Price is required when order is marked as delivered."⟩)
    ∧ updateStatusSerializerUpdate o .DELIVERED now =
        .error ⟨"price", "Price is required when order is marked as delivered."⟩
    ∧ orderSerializerValidate (some o) (some .DELIVERED) none =
        .error ⟨"price", "Price is required when order is marked as delivered."⟩ := by
  refine ⟨fun hs => save_error_of_falsy_price o now hs hp, ?_, ?_⟩
  · unfold updateStatusSerializerUpdate
    dsimp only
    refine save_error_of_falsy_price _ now rfl ?_
    show priceFalsy (if _ then _ else o).price = true
    split
    · exact hp
    · exact hp
  · unfold orderSerializerValidate
    simp [hp]

/-- Witness for C4: a DELIVERED order with no price fails to save. -/
theorem claim_delivered_requires_price_witness :
    priceFalsy (Order.mk 2 "b" "p" "d" none none .DELIVERED none 0 0 none none).price
      = true
    ∧ (Order.mk 2 "b" "p" "d" none none .DELIVERED none 0 0 none none).save 7 =
        .error ⟨"price", "Price is required when order is marked as delivered."⟩ := by
  refine ⟨by rfl, ?_⟩
  exact (claim_delivered_requires_price
    (Order.mk 2 "b" "p" "d" none none .DELIVERED none 0 0 none none) 7 (by rfl)).1 rfl

/-- C10: re-saving an already-DELIVERED order (with status still
DELIVERED) never re-stamps `delivered_at`: both the model save and the
status-only serializer path keep the original timestamp. -/
theorem claim_delivered_at_idempotent (o : Order) (t0 now : Nat)
    (hs : o.status = .DELIVERED) (hd : o.delivered_at = some t0) :
    (∀ o', o.save now = .ok o' → o'.delivered_at = some t0)
    ∧ (∀ o', updateStatusSerializerUpdate o .DELIVERED now = .ok o' →
         o'.delivered_at = some t0) := by
  constructor
  · intro o' h
    obtain rfl := save_ok_eq o now o' h
    rw [deliveredAtRules_delivered_at_of_delivered o now hs, hd]
    rfl
  · intro o' h
    unfold updateStatusSerializerUpdate at h
    rw [if_neg (fun hc => hc.2 hs)] at h
    obtain rfl := save_ok_eq _ now o' h
    rw [deliveredAtRules_delivered_at_of_delivered _ now rfl]
    simp [hd]

/-- Witness for C10: re-saving a delivered order at time 9 keeps the
original `delivered_at = 4`. -/
theorem claim_delivered_at_idempotent_witness :
    (Order.mk 3 "c" "p" "d" none (some 10) .DELIVERED none 0 0 (some 4) none).save 9
      = .ok (Order.mk 3 "c" "p" "d" none (some 10) .DELIVERED none 0 0 (some 4) none)
    ∧ (Order.mk 3 "c" "p" "d" none (some 10) .DELIVERED none 0 0 (some 4) none).delivered_at
      = some 4 := by
  refine ⟨by rfl, ?_⟩
  exact (claim_delivered_at_idempotent
    (Order.mk 3 "c" "p" "d" none (some 10) .DELIVERED none 0 0 (some 4) none)
    4 9 (by rfl) (by rfl)).1 _ (by rfl)

/-! ### C5: worker field gate on order updates -/

/-- C5 counterexample: the claim says every worker order-update request
is rejected iff its field set is not a subset of `{status}`, but the
`update_status` action's decorator replaces the permission classes with
`IsAuthenticated` alone, so an authenticated worker's request there
carrying `customer_name` alongside `status` is accepted, not
rejected. -/
theorem claim_worker_update_gate_counterexample :
    orderUpdateAuthorized true .WORKER .updateStatus ["customer_name", "status"] = true
    ∧ fieldsOnlyStatus ["customer_name", "status"] = false
    ∧ performOrderUpdate true .WORKER .updateStatus ["customer_name", "status"]
        (DB.mk [] [] 1) id = (DB.mk [] [] 1, none) := by
  exact ⟨rfl, by decide, rfl⟩

/-- C5 amended: on the standard update endpoint (PUT/PATCH through the
router, gated by `CanUpdateOrder`), an authenticated worker's request
is rejected as an authorization failure — before any mutation runs —
exactly when its field set is not a subset of `{status}`, while a
manager's request always passes; the separate status-only endpoint
checks only authentication (its serializer ignores non-status
fields). -/
theorem claim_worker_update_gate_standard (m : Method) (fields : List String)
    (db : DB) (mutate : DB → DB) (hm : m = .PATCH ∨ m = .PUT) :
    (performOrderUpdate true .WORKER (.standard m) fields db mutate
       = if fieldsOnlyStatus fields then (mutate db, none)
         else (db, some .authorization))
    ∧ performOrderUpdate true .MANAGER (.standard m) fields db mutate
       = (mutate db, none)
    ∧ performOrderUpdate true .WORKER .updateStatus fields db mutate
       = (mutate db, none) := by
  obtain rfl | rfl := hm <;>
    refine ⟨?_, rfl, rfl⟩ <;>
      cases hf : fieldsOnlyStatus fields <;>
        simp [performOrderUpdate, orderUpdateAuthorized,
          canUpdateOrderPermission, canUpdateOrderObjectPermission,
          safeMethods, hf]

/-- Witness for C5 amended: a worker PATCH touching `customer_name` on
the standard endpoint is rejected with no state change. -/
theorem claim_worker_update_gate_standard_witness :
    (Method.PATCH = Method.PATCH ∨ Method.PATCH = Method.PUT)
    ∧ performOrderUpdate true .WORKER (.standard .PATCH)
        ["customer_name", "status"] (DB.mk [] [] 1) id
      = (DB.mk [] [] 1, some .authorization) := by
  refine ⟨Or.inl rfl, ?_⟩
  have h := (claim_worker_update_gate_standard .PATCH ["customer_name", "status"]
    (DB.mk [] [] 1) id (Or.inl rfl)).1
  rw [h]
  rfl

/-! ### C6: broadcast notifications -/

/-- C6: with a channel layer configured, a successful order save
publishes exactly one message to the single shared `orders` group,
carrying the action (created/updated) and the serialized order; a save
that fails validation publishes nothing; an order deletion publishes
exactly one message whose payload is only the order's id. -/
theorem claim_broadcast_on_order_mutations (created : Bool) (o : Order)
    (now : Nat) (users : Nat → Option String) :
    (∀ o', (saveWithSignals true created o now users).1 = .ok o' →
       (saveWithSignals true created o now users).2
         = [⟨"orders", "order_update",
             if created then .created else .updated,
             .full (serializeOrder o' users)⟩])
    ∧ (∀ e, (saveWithSignals true created o now users).1 = .error e →
        (saveWithSignals true created o now users).2 = [])
    ∧ orderDeletedSignal true o
        = [⟨"orders", "order_update", .deleted, .idOnly o.id⟩] := by
  refine ⟨?_, ?_, rfl⟩
  · intro o' h
    cases hs : o.save now with
    | error e => simp [saveWithSignals, hs] at h
    | ok o2 =>
      simp only [saveWithSignals, hs, Except.ok.injEq] at h
      subst h
      simp [saveWithSignals, hs, orderSavedSignal]
  · intro e h
    cases hs : o.save now with
    | error e2 => simp [saveWithSignals, hs]
    | ok o2 => simp [saveWithSignals, hs] at h

/-- Witness for C6: saving a concrete deliverable order emits exactly
the one `created` message, and deleting it emits the id-only message. -/
theorem claim_broadcast_on_order_mutations_witness :
    (saveWithSignals true true
        (Order.mk 4 "n" "p" "d" none (some 20) .UNDER_WORK none 0 0 none none)
        5 (fun _ => none)).1
      = .ok (Order.mk 4 "n" "p" "d" none (some 20) .UNDER_WORK none 0 0 none none)
    ∧ (saveWithSignals true true
        (Order.mk 4 "n" "p" "d" none (some 20) .UNDER_WORK none 0 0 none none)
        5 (fun _ => none)).2
      = [⟨"orders", "order_update", .created,
          .full (serializeOrder
            (Order.mk 4 "n" "p" "d" none (some 20) .UNDER_WORK none 0 0 none none)
            (fun _ => none))⟩] := by
  refine ⟨by rfl, ?_⟩
  exact (claim_broadcast_on_order_mutations true
    (Order.mk 4 "n" "p" "d" none (some 20) .UNDER_WORK none 0 0 none none)
    5 (fun _ => none)).1
    (Order.mk 4 "n" "p" "d" none (some 20) .UNDER_WORK none 0 0 none none) (by rfl)

/-! ### C7: closing an already-closed shift -/

/-- C7 counterexample: the claim says the "already closed" rejection is
of the Conflict kind, distinct from a validation failure; the code
raises a DRF `ValidationError`, so the surfaced kind is `validation`,
not `conflict` (the state is indeed left unchanged). -/
theorem claim_close_already_closed_counterexample :
    (closeAction (DB.mk [Shift.mk 1 0 (some 10) (some 1) (some 1) false 0 0] [] 2)
        1 7 100).2
      = some ⟨.validation, "Shift already closed"⟩
    ∧ ErrorKind.validation ≠ ErrorKind.conflict
    ∧ (closeAction (DB.mk [Shift.mk 1 0 (some 10) (some 1) (some 1) false 0 0] [] 2)
        1 7 100).1
      = DB.mk [Shift.mk 1 0 (some 10) (some 1) (some 1) false 0 0] [] 2 := by
  exact ⟨rfl, by decide, rfl⟩

/-- C7 amended: closing a shift whose `is_active` is already false is
rejected with the explicit "Shift already closed" error, surfaced as a
validation failure (DRF `ValidationError`, not a Conflict), and the
store is left entirely unchanged. -/
theorem claim_close_already_closed_validation (db : DB) (sid user now : Nat)
    (s : Shift) (hf : db.shifts.find? (fun t => t.id == sid) = some s)
    (hi : s.is_active = false) :
    closeAction db sid user now
      = (db, some ⟨.validation, "Shift already closed"⟩) := by
  unfold closeAction
  rw [hf]
  simp [hi]

/-- Witness for C7 amended at a concrete closed shift. -/
theorem claim_close_already_closed_validation_witness :
    (DB.mk [Shift.mk 1 0 (some 10) (some 1) (some 1) false 0 0] [] 2).shifts.find?
        (fun t => t.id == 1)
      = some (Shift.mk 1 0 (some 10) (some 1) (some 1) false 0 0)
    ∧ (Shift.mk 1 0 (some 10) (some 1) (some 1) false 0 0).is_active = false
    ∧ closeAction (DB.mk [Shift.mk 1 0 (some 10) (some 1) (some 1) false 0 0] [] 2)
        1 7 100
      = (DB.mk [Shift.mk 1 0 (some 10) (some 1) (some 1) false 0 0] [] 2,
         some ⟨.validation, "Shift already closed"⟩) := by
  refine ⟨by rfl, by rfl, ?_⟩
  exact claim_close_already_closed_validation
    (DB.mk [Shift.mk 1 0 (some 10) (some 1) (some 1) false 0 0] [] 2) 1 7 100
    (Shift.mk 1 0 (some 10) (some 1) (some 1) false 0 0) (by rfl) rfl

/-! ### C8: public reads expose no sensitive fields -/

/-- C8: the unauthenticated track and showcase reads depend only on the
restricted field subset: two orders agreeing on id, name, details,
image, status and the created/delivered timestamps — but differing
arbitrarily in price, customer phone, creator reference, shift link or
`updated_at` — produce identical responses, so neither read exposes
price, phone, or internal references. -/
theorem claim_public_reads_noninterference (o1 o2 : Order)
    (hid : o1.id = o2.id) (hname : o1.customer_name = o2.customer_name)
    (hdet : o1.order_details = o2.order_details)
    (himg : o1.image = o2.image) (hst : o1.status = o2.status)
    (hca : o1.created_at = o2.created_at)
    (hda : o1.delivered_at = o2.delivered_at) :
    track o1 = track o2 ∧ showcaseSerialize o1 = showcaseSerialize o2 := by
  unfold track showcaseSerialize
  rw [hid, hname, hdet, himg, hst, hca, hda]
  exact ⟨rfl, rfl⟩

/-- Witness for C8: two orders differing only in price, phone, creator,
shift link and `updated_at` are indistinguishable through both public
reads. -/
theorem claim_public_reads_noninterference_witness :
    track (Order.mk 1 "n" "111" "d" none (some 100) .DELIVERED (some 1) 0 3 (some 2) (some 1))
      = track (Order.mk 1 "n" "222" "d" none (some 999) .DELIVERED (some 9) 0 4 (some 2) (some 3))
    ∧ showcaseSerialize
        (Order.mk 1 "n" "111" "d" none (some 100) .DELIVERED (some 1) 0 3 (some 2) (some 1))
      = showcaseSerialize
        (Order.mk 1 "n" "222" "d" none (some 999) .DELIVERED (some 9) 0 4 (some 2) (some 3)) := by
  exact claim_public_reads_noninterference
    (Order.mk 1 "n" "111" "d" none (some 100) .DELIVERED (some 1) 0 3 (some 2) (some 1))
    (Order.mk 1 "n" "222" "d" none (some 999) .DELIVERED (some 9) 0 4 (some 2) (some 3))
    rfl rfl rfl rfl rfl rfl rfl

/-! ### C2: shift-close totals -/

theorem filterMap_price_sum (l : List Order) :
    (l.filterMap (·.price)).sum = (l.map (fun o => o.price.getD 0)).sum := by
  induction l with
  | nil => rfl
  | cons o rest ih =>
    cases hp : o.price with
    | none => simp [List.filterMap_cons, hp, ih]
    | some p => simp [List.filterMap_cons, hp, ih]

theorem revenueOrZero_sumPrices (l : List Order) :
    revenueOrZero (sumPrices l) = (l.map (fun o => o.price.getD 0)).sum := by
  rw [← filterMap_price_sum]
  unfold sumPrices revenueOrZero
  cases he : (l.filterMap (·.price)).isEmpty
  · simp only [he, Bool.false_eq_true, if_false]
    split <;> omega
  · have hn : l.filterMap (·.price) = [] := List.isEmpty_iff.mp he
    simp [hn]

/-- C2: `_close_shift` on an active shift stamps `closed_at`,
`closed_by` and `is_active = false`, freezes `total_orders_delivered`
as the exact count and `total_revenue` as the exact sum of prices of
the orders with status DELIVERED delivered in `[opened_at, closed_at]`
inclusive (zero when there are none, an empty sum), links exactly the
matched orders to the shift, and leaves every other order untouched;
the final conjunct restates the code's filter as the spec's inclusive
window. -/
theorem claim_close_shift_totals (s : Shift) (user : Nat)
    (orders : List Order) (now : Nat) (_hact : s.is_active = true) :
    (closeShiftHelper s user orders now).1.closed_at = some now
    ∧ (closeShiftHelper s user orders now).1.closed_by = some user
    ∧ (closeShiftHelper s user orders now).1.is_active = false
    ∧ (closeShiftHelper s user orders now).1.total_orders_delivered
        = (orders.filter (matchesDelivered s.opened_at now)).length
    ∧ (closeShiftHelper s user orders now).1.total_revenue
        = ((orders.filter (matchesDelivered s.opened_at now)).map
            (fun o => o.price.getD 0)).sum
    ∧ (closeShiftHelper s user orders now).2
        = orders.map (fun o =>
            if matchesDelivered s.opened_at now o then
              { o with delivered_in_shift := some s.id }
            else o)
    ∧ (∀ o : Order, matchesDelivered s.opened_at now o = true
         ↔ (o.status = .DELIVERED
            ∧ ∃ t, o.delivered_at = some t ∧ s.opened_at ≤ t ∧ t ≤ now)) := by
  refine ⟨rfl, rfl, rfl, rfl, revenueOrZero_sumPrices _, rfl, ?_⟩
  intro o
  unfold matchesDelivered
  cases hd : o.delivered_at with
  | none => simp [hd]
  | some t => simp [hd]

/-- Witness for C2: a shift open at 10 closed at 100 over three orders
(two delivered inside the window at 20 and 50 with prices 30 and 70,
one delivered at 200, outside) freezes count 2 and revenue 100, links
the two matched orders, and leaves the third unlinked. -/
theorem claim_close_shift_totals_witness :
    (Shift.mk 1 10 none (some 1) none true 0 0).is_active = true
    ∧ (closeShiftHelper (Shift.mk 1 10 none (some 1) none true 0 0) 7
        [Order.mk 1 "a" "p" "d" none (some 30) .DELIVERED none 0 0 (some 20) none,
         Order.mk 2 "b" "p" "d" none (some 70) .DELIVERED none 0 0 (some 50) none,
         Order.mk 3 "c" "p" "d" none (some 9) .DELIVERED none 0 0 (some 200) none]
        100).1.total_orders_delivered = 2
    ∧ (closeShiftHelper (Shift.mk 1 10 none (some 1) none true 0 0) 7
        [Order.mk 1 "a" "p" "d" none (some 30) .DELIVERED none 0 0 (some 20) none,
         Order.mk 2 "b" "p" "d" none (some 70) .DELIVERED none 0 0 (some 50) none,
         Order.mk 3 "c" "p" "d" none (some 9) .DELIVERED none 0 0 (some 200) none]
        100).1.total_revenue = 100
    ∧ (closeShiftHelper (Shift.mk 1 10 none (some 1) none true 0 0) 7
        [Order.mk 1 "a" "p" "d" none (some 30) .DELIVERED none 0 0 (some 20) none,
         Order.mk 2 "b" "p" "d" none (some 70) .DELIVERED none 0 0 (some 50) none,
         Order.mk 3 "c" "p" "d" none (some 9) .DELIVERED none 0 0 (some 200) none]
        100).2
      = [Order.mk 1 "a" "p" "d" none (some 30) .DELIVERED none 0 0 (some 20) (some 1),
         Order.mk 2 "b" "p" "d" none (some 70) .DELIVERED none 0 0 (some 50) (some 1),
         Order.mk 3 "c" "p" "d" none (some 9) .DELIVERED none 0 0 (some 200) none] := by
  have h := claim_close_shift_totals (Shift.mk 1 10 none (some 1) none true 0 0) 7
    [Order.mk 1 "a" "p" "d" none (some 30) .DELIVERED none 0 0 (some 20) none,
     Order.mk 2 "b" "p" "d" none (some 70) .DELIVERED none 0 0 (some 50) none,
     Order.mk 3 "c" "p" "d" none (some 9) .DELIVERED none 0 0 (some 200) none]
    100 rfl
  refine ⟨rfl, ?_, ?_, ?_⟩
  · rw [h.2.2.2.1]; rfl
  · rw [h.2.2.2.2.1]; rfl
  · rw [h.2.2.2.2.2.1]; rfl

/-! ### C9: daily report -/

theorem lookupStatus_append (s : Status) (a b : List (Status × Nat)) :
    lookupStatus s (a ++ b)
      = match lookupStatus s a with
        | some v => some v
        | none => lookupStatus s b := by
  induction a with
  | nil => rfl
  | cons kv rest ih =>
    by_cases h : kv.1 = s
    · simp [lookupStatus, h]
    · simp [lookupStatus, h, ih]

theorem lookupStatus_map_self (s : Status) (l : List Status)
    (f : Status → Nat) :
    lookupStatus s (l.map (fun x => (x, f x)))
      = if s ∈ l then some (f s) else none := by
  induction l with
  | nil => rfl
  | cons x rest ih =>
    by_cases h : x = s
    · subst h
      simp [lookupStatus]
    · have h2 : ¬ s = x := fun hh => h hh.symm
      simp [lookupStatus, h, ih, List.mem_cons, h2]

theorem mem_allStatuses (s : Status) : s ∈ allStatuses := by
  cases s <;> simp [allStatuses]

/-- C9: for every date, the daily report's `total_orders` and
`total_revenue` are the count and exact price sum of DELIVERED orders
whose `delivered_at` falls on that date, and its status breakdown maps
every one of the five statuses (none missing) to the number of orders
created that date with that status — zero included. -/
theorem claim_daily_report (d : Nat) (orders : List Order) :
    (dailyReport d orders).total_orders
      = orders.countP (fun o =>
          decide (o.status = .DELIVERED) &&
          (match o.delivered_at with
           | some t => decide (dateOf t = d)
           | none => false))
    ∧ (dailyReport d orders).total_revenue
      = ((orders.filter (fun o =>
            decide (o.status = .DELIVERED) &&
            (match o.delivered_at with
             | some t => decide (dateOf t = d)
             | none => false))).map (fun o => o.price.getD 0)).sum
    ∧ ∀ s : Status,
        lookupStatus s (dailyReport d orders).orders_by_status
          = some ((orders.filter (fun o => decide (dateOf o.created_at = d))).countP
              (fun o => decide (o.status = s))) := by
  refine ⟨?_, revenueOrZero_sumPrices _, ?_⟩
  · exact (List.countP_eq_length_filter _ _).symm
  · intro s
    unfold dailyReport
    dsimp only
    rw [lookupStatus_append]
    rw [lookupStatus_map_self]
    by_cases hm : s ∈ ((orders.filter
        (fun o => decide (dateOf o.created_at = d))).map (·.status)).dedup
    · rw [if_pos hm]
    · rw [if_neg hm]
      have hc : (orders.filter (fun o => decide (dateOf o.created_at = d))).countP
          (fun o => decide (o.status = s)) = 0 := by
        rw [List.countP_eq_zero]
        intro o ho hs
        apply hm
        rw [List.mem_dedup]
        exact List.mem_map.mpr ⟨o, ho, of_decide_eq_true hs⟩
      rw [hc]
      have hmem : s ∈ allStatuses.filter (fun x => decide (x ∉ ((orders.filter
          (fun o => decide (dateOf o.created_at = d))).map (·.status)).dedup)) := by
        rw [List.mem_filter]
        exact ⟨mem_allStatuses s, decide_eq_true hm⟩
      rw [lookupStatus_map_self s _ (fun _ => 0)]
      rw [if_pos hmem]

/-- Witness-style instance for C9 is not needed (no hypotheses), but a
concrete evaluation is provided with the results file; the theorem is
fully universally quantified. -/
theorem claim_daily_report_example :
    (dailyReport 1 [Order.mk 1 "a" "p" "d" none (some 40) .DELIVERED none 90000 0 (some 90500) none,
                    Order.mk 2 "b" "p" "d" none none .UNDER_WORK none 90100 0 none none,
                    Order.mk 3 "c" "p" "d" none (some 5) .DELIVERED none 500 0 (some 600) none]).total_orders = 1
    ∧ (dailyReport 1 [Order.mk 1 "a" "p" "d" none (some 40) .DELIVERED none 90000 0 (some 90500) none,
                    Order.mk 2 "b" "p" "d" none none .UNDER_WORK none 90100 0 none none,
                    Order.mk 3 "c" "p" "d" none (some 5) .DELIVERED none 500 0 (some 600) none]).total_revenue = 40
    ∧ lookupStatus .DESIGNING (dailyReport 1 [Order.mk 1 "a" "p" "d" none (some 40) .DELIVERED none 90000 0 (some 90500) none,
                    Order.mk 2 "b" "p" "d" none none .UNDER_WORK none 90100 0 none none,
                    Order.mk 3 "c" "p" "d" none (some 5) .DELIVERED none 500 0 (some 600) none]).orders_by_status = some 0
    ∧ lookupStatus .UNDER_WORK (dailyReport 1 [Order.mk 1 "a" "p" "d" none (some 40) .DELIVERED none 90000 0 (some 90500) none,
                    Order.mk 2 "b" "p" "d" none none .UNDER_WORK none 90100 0 none none,
                    Order.mk 3 "c" "p" "d" none (some 5) .DELIVERED none 500 0 (some 600) none]).orders_by_status = some 1 := by
  refine ⟨by rfl, by rfl, by rfl, by rfl⟩

/-! ### C3: at most one active shift -/

theorem closeShiftHelper_is_active (s : Shift) (user : Nat)
    (orders : List Order) (now : Nat) :
    (closeShiftHelper s user orders now).1.is_active = false := rfl

theorem closeShiftInDB_active_mem (db : DB) (sid user now : Nat) :
    ∀ x ∈ (closeShiftInDB db sid user now).shifts, x.is_active = true →
      ∃ y ∈ db.shifts, y.is_active = true ∧ y.id = x.id ∧ x.id ≠ sid := by
  intro x hx hact
  unfold closeShiftInDB at hx
  cases hf : db.shifts.find? (fun s => s.id == sid) with
  | none =>
    rw [hf] at hx
    refine ⟨x, hx, hact, rfl, ?_⟩
    intro hid
    have hnone := List.find?_eq_none.mp hf x hx
    simp [hid] at hnone
  | some s =>
    rw [hf] at hx
    dsimp only at hx
    obtain ⟨a, ha, hfa⟩ := List.mem_map.mp hx
    by_cases hid : (a.id == sid) = true
    · rw [if_pos hid] at hfa
      rw [← hfa] at hact
      rw [closeShiftHelper_is_active] at hact
      cases hact
    · rw [if_neg hid] at hfa
      subst hfa
      refine ⟨a, ha, hact, rfl, ?_⟩
      intro h
      exact hid (by simp [h])

theorem foldClose_closes (user now : Nat) :
    ∀ (L : List Nat) (db : DB),
      (∀ x ∈ db.shifts, x.is_active = true → x.id ∈ L) →
      ∀ x ∈ (L.foldl (fun d sid => closeShiftInDB d sid user now) db).shifts,
        x.is_active = false := by
  intro L
  induction L with
  | nil =>
    intro db h x hx
    cases hb : x.is_active
    · rfl
    · exact absurd (h x hx hb) (List.not_mem_nil _)
  | cons sid L ih =>
    intro db h x hx
    rw [List.foldl_cons] at hx
    refine ih (closeShiftInDB db sid user now) ?_ x hx
    intro y hy hyact
    obtain ⟨z, hz, hzact, hzid, hyid⟩ :=
      closeShiftInDB_active_mem db sid user now y hy hyact
    have hmem := h z hz hzact
    rw [List.mem_cons] at hmem
    rcases hmem with h1 | h2
    · exact absurd (by rw [← hzid]; exact h1) hyid
    · rw [← hzid]
      exact h2

theorem openNew_fold_inactive (db : DB) (user now : Nat) :
    ∀ x ∈ (((db.shifts.filter (·.is_active)).map (·.id)).foldl
        (fun d sid => closeShiftInDB d sid user now) db).shifts,
      x.is_active = false := by
  apply foldClose_closes
  intro x hx hxact
  exact List.mem_map.mpr ⟨x, List.mem_filter.mpr ⟨hx, hxact⟩, rfl⟩

theorem activeCount_openNew (db : DB) (user now : Nat) :
    activeCount (openNew db user now) = 1 := by
  unfold openNew activeCount
  dsimp only
  rw [List.countP_append]
  have h0 : (((db.shifts.filter (·.is_active)).map (·.id)).foldl
      (fun d sid => closeShiftInDB d sid user now) db).shifts.countP
        (·.is_active) = 0 := by
    rw [List.countP_eq_zero]
    intro a ha
    have hf := openNew_fold_inactive db user now a ha
    simp [hf]
  rw [h0]
  rfl

theorem activeCount_closeShiftInDB_le (db : DB) (sid user now : Nat) :
    activeCount (closeShiftInDB db sid user now) ≤ activeCount db := by
  unfold closeShiftInDB activeCount
  cases hf : db.shifts.find? (fun s => s.id == sid) with
  | none =>
    exact Nat.le_refl _
  | some s =>
    dsimp only
    rw [List.countP_map]
    apply List.countP_mono_left
    intro a ha hpa
    simp only [Function.comp] at hpa
    by_cases hid : (a.id == sid) = true
    · rw [if_pos hid] at hpa
      rw [closeShiftHelper_is_active] at hpa
      cases hpa
    · rw [if_neg hid] at hpa
      exact hpa

theorem activeCount_closeAction_le (db : DB) (sid user now : Nat) :
    activeCount (closeAction db sid user now).1 ≤ activeCount db := by
  unfold closeAction
  cases hf : db.shifts.find? (fun s => s.id == sid) with
  | none =>
    exact Nat.le_refl _
  | some s =>
    dsimp only
    by_cases hi : s.is_active = false
    · rw [if_pos hi]
    · rw [if_neg hi]
      exact activeCount_closeShiftInDB_le db sid user now

theorem activeCount_run_le (ops : List ShiftOp) :
    ∀ db : DB, activeCount db ≤ 1 →
      activeCount (ops.foldl applyShiftOp db) ≤ 1 := by
  induction ops with
  | nil => intro db h; exact h
  | cons op ops ih =>
    intro db h
    rw [List.foldl_cons]
    apply ih
    cases op with
    | openShift u t =>
      show activeCount (openNew db u t) ≤ 1
      rw [activeCount_openNew]
    | closeShift sid u t =>
      exact Nat.le_trans (activeCount_closeAction_le db sid u t) h

/-- C3: after any sequence of shift open/close operations starting from
an empty shift table, at most one shift has `is_active = true`; and
`open_new` first closes every currently active shift (every
pre-existing shift in its result is inactive) before appending the one
fresh shift, which is active, has zeroed statistics, and is opened by
the requesting actor. -/
theorem claim_at_most_one_active_shift :
    (∀ (ops : List ShiftOp) (orders : List Order),
       activeCount (runShiftOps ops orders) ≤ 1)
    ∧ (∀ (db : DB) (user now : Nat), ∃ i rest,
         (openNew db user now).shifts
           = rest ++ [Shift.mk i now none (some user) none true 0 0]
         ∧ ∀ x ∈ rest, x.is_active = false) := by
  constructor
  · intro ops orders
    exact activeCount_run_le ops ⟨[], orders, 1⟩ (Nat.zero_le 1)
  · intro db user now
    refine ⟨_, _, rfl, ?_⟩
    exact openNew_fold_inactive db user now

/-- Witness for C3 at a concrete run: opening twice in a row (the
second open closing the first shift) leaves at most one active
shift. -/
theorem claim_at_most_one_active_shift_witness :
    activeCount (runShiftOps [ShiftOp.openShift 1 10, ShiftOp.openShift 2 20] []) ≤ 1 :=
  claim_at_most_one_active_shift.1 [ShiftOp.openShift 1 10, ShiftOp.openShift 2 20] []

end LaserWorkshop
